import Mathlib

/-!
Shallow embedding of the BlueMap Cloudflare worker (Tresillo2017/bluemap-cloudflare).

The repository ships two variants of the worker `fetch` handler:

* `W1` — the older `src/index.ts` (the variant with `shouldTryGz`, a MIME
  lookup table, and a root-path rewrite to `index.html`).
* `W2` — the newer `src/index.ts` (the variant that handles only `maps/*`
  paths from R2, has `/debug` and `/debug/live` endpoints, and includes
  `settings.json` in the compressed-first set).

Both are modelled as pure functions from a `Request` and an `Env` (the
worker environment: the R2 bucket contents, the optional live-server
origin, and the outcome of the single possible outbound origin fetch) to a
`FetchResult`: the HTTP response together with the trace of store reads
(`gets`), store list calls (`lists`) and outbound network calls (`net`),
in the order the code issues them.

Machine-level concerns that the claims do not touch are simplified as
follows: URL percent-decoding happens once in the transport layer, so
`Request.pathname` is the already-decoded pathname; response bodies are
modelled structurally (`Body`) rather than as byte streams; wall-clock
timing in the debug endpoint is not modelled.
-/

/-- HTTP method, as the worker distinguishes them (`GET`, `HEAD`, `OPTIONS`,
anything else is rejected with 405; `POST` stands for such a method). -/
inductive Method where
  | GET
  | HEAD
  | OPTIONS
  | POST
deriving DecidableEq

/-- An R2 object as the worker consumes it: its HTTP ETag, its size (used
only by the `/debug` listing), and its body bytes (modelled as a string). -/
structure R2Obj where
  httpEtag : String
  size : Nat
  data : String
deriving DecidableEq

/-- Response body, modelled structurally. `objectStream` is an R2 object
body passed through; `proxied` is a live-origin body relayed unchanged;
the `debug*` constructors carry the data the debug endpoints serialize to
JSON; `jsonErr` is the `/debug/live` configuration-error payload. -/
inductive Body where
  | objectStream (data : String)
  | text (s : String)
  | proxied (s : String)
  | debugList (truncated : Bool) (objects : List (String × Nat))
  | debugLiveInfo (testUrl : String) (status : Nat)
      (headers : List (String × String)) (bodyPreview : String)
  | debugLiveErr (testUrl : String)
  | jsonErr (msg : String)
deriving DecidableEq

/-- An HTTP response: status, headers (name/value pairs), optional body.
`new Response(...)` defaults the status to 200. -/
structure Resp where
  status : Nat
  headers : List (String × String)
  body : Option Body
deriving DecidableEq

/-- An incoming request, with the pieces of it the worker reads:
method, decoded pathname, the `If-None-Match` header, the `Accept`
header, and the query parameters (used only by `/debug`). -/
structure Request where
  method : Method
  pathname : String
  ifNoneMatch : Option String
  accept : Option String
  query : List (String × String)
deriving DecidableEq

/-- The response of the live-origin server, for a successful outbound fetch. -/
structure OriginResp where
  status : Nat
  headers : List (String × String)
  body : String
deriving DecidableEq

/-- The worker environment: `origin` is `LIVE_SERVER_ORIGIN` (optional
binding), `store` is the R2 bucket contents (key to object), and
`originResp` is the outcome of the single outbound fetch a request can
make (`none` models a connection/transport error, i.e. the `catch` arm). -/
structure Env where
  origin : Option String
  store : List (String × R2Obj)
  originResp : Option OriginResp
deriving DecidableEq

/-- The result of one `fetch` invocation: the response plus the trace of
R2 `get` keys, R2 `list` calls (prefix and limit arguments), and outbound
network call URLs, each in program order. -/
structure FetchResult where
  resp : Resp
  gets : List String
  lists : List (Option String × Option Nat)
  net : List String
deriving DecidableEq

/-- Model of JS `String.prototype.startsWith` (and Lean `String.startsWith`),
written over the character lists so it evaluates in the kernel. -/
def strStartsWith (s pre : String) : Bool := pre.data.isPrefixOf s.data

/-- Model of JS `String.prototype.endsWith` (and Lean `String.endsWith`). -/
def strEndsWith (s post : String) : Bool := post.data.isSuffixOf s.data

/-- Model of JS `String.prototype.substring(n)` on the ASCII strings the
worker handles: drop the first `n` characters. -/
def strDrop (s : String) (n : Nat) : String := String.mk (s.data.drop n)

/-- Split a character list on a single separator character; the JS
`String.prototype.split` semantics for one-character separators (an empty
input yields one empty field, a trailing separator a trailing empty field). -/
def splitOnChar (c : Char) : List Char → List (List Char)
  | [] => [[]]
  | ch :: t =>
    if ch = c then [] :: splitOnChar c t
    else
      match splitOnChar c t with
      | [] => [[ch]]
      | h :: r => (ch :: h) :: r

/-- Model of JS `String.prototype.split` (single-character separator). -/
def splitStr (s : String) (c : Char) : List String :=
  (splitOnChar c s.data).map String.mk

/-- Lower-casing of a string (JS `toLowerCase` on the ASCII strings the
worker handles), written over the character list so it evaluates in the
kernel. -/
def toLowerStr (s : String) : String := String.mk (s.data.map Char.toLower)

/-- Lower-case a header name: HTTP header names are case-insensitive, and
the Workers `Headers` class compares them case-insensitively. -/
def hName (s : String) : String := toLowerStr s

/-- `Headers.set`: replaces any existing header with the same
(case-insensitive) name, then records the new value. -/
def hset (hs : List (String × String)) (k v : String) : List (String × String) :=
  hs.filter (fun p => hName p.1 ≠ hName k) ++ [(k, v)]

/-- `Headers.get`: first header whose name matches case-insensitively. -/
def hget (hs : List (String × String)) (k : String) : Option String :=
  (hs.find? (fun p => hName p.1 = hName k)).map (fun p => p.2)

/-- `BUCKET.get(key)`: look a key up in the bucket. -/
def bucketGet (store : List (String × R2Obj)) (key : String) : Option R2Obj :=
  (store.find? (fun p => p.1 = key)).map (fun p => p.2)

/-- The `if (path.startsWith("/")) path = path.substring(1)` step both
variants perform on the decoded pathname. -/
def stripLeadingSlash (p : String) : String :=
  if strStartsWith p "/" then strDrop p 1 else p

/-- JS truthiness of the optional `LIVE_SERVER_ORIGIN` binding: unset or
the empty string are both falsy. -/
def isSet : Option String → Bool
  | none => false
  | some s => s ≠ ""

/-- The `origin.replace(/\/+$/, "")` step: drop every trailing slash. -/
def stripTrailingSlashes (s : String) : String :=
  String.mk ((s.data.reverse.dropWhile (fun c => c = '/')).reverse)

/-- The conditional-request test `ifNoneMatch && ifNoneMatch === object.httpEtag`:
a missing or empty validator is falsy in JS. -/
def inmMatches (inm : Option String) (etag : String) : Bool :=
  match inm with
  | none => false
  | some v => v ≠ "" && v = etag

/-- `url.searchParams.get(k)` over the modelled query pairs. -/
def searchParamsGet (q : List (String × String)) (k : String) : Option String :=
  (q.find? (fun p => p.1 = k)).map (fun p => p.2)

/-- JS `parseInt` restricted to what the worker feeds it (decimal digit
strings, or garbage): `none` models `NaN`. -/
def parseIntJs (s : String) : Option Nat :=
  let ds := s.data.takeWhile Char.isDigit
  if ds.isEmpty then none
  else some (ds.foldl (fun n c => n * 10 + (c.toNat - 48)) 0)

/-- `BUCKET.list(prefixFilter, limit)`: keys filtered by the optional
prefix, truncated to the limit. How the store treats a `NaN` limit is the
store client collaborator's concern; a `none` limit is modelled as
unlimited. -/
def listBucket (store : List (String × R2Obj)) (pfx : Option String)
    (limit : Option Nat) : Bool × List (String × Nat) :=
  let matching := store.filter (fun p =>
    match pfx with
    | none => true
    | some q => strStartsWith p.1 q)
  let lim := limit.getD matching.length
  (decide (matching.length > lim), (matching.take lim).map (fun p => (p.1, p.2.size)))

/-- The live-path regex both variants use, `^maps\/[^/]+\/live\/`:
a `maps/` segment, one nonempty slash-free map id, a `live` segment, and a
trailing slash (so at least one further, possibly empty, component). -/
def isLivePath (path : String) : Bool :=
  match splitStr path '/' with
  | "maps" :: seg :: "live" :: _ :: _ => seg ≠ ""
  | _ => false

namespace W1

/-- MIME lookup table of the older worker (`MIME_TYPES`). -/
def MIME_TYPES : List (String × String) := [
  ("html", "text/html; charset=utf-8"),
  ("htm", "text/html; charset=utf-8"),
  ("css", "text/css; charset=utf-8"),
  ("js", "text/javascript; charset=utf-8"),
  ("json", "application/json; charset=utf-8"),
  ("txt", "text/plain; charset=utf-8"),
  ("xml", "text/xml; charset=utf-8"),
  ("csv", "text/csv; charset=utf-8"),
  ("svg", "image/svg+xml"),
  ("png", "image/png"),
  ("jpg", "image/jpeg"),
  ("jpeg", "image/jpeg"),
  ("gif", "image/gif"),
  ("webp", "image/webp"),
  ("ico", "image/x-icon"),
  ("tif", "image/tiff"),
  ("tiff", "image/tiff"),
  ("ttf", "font/ttf"),
  ("woff", "font/woff"),
  ("woff2", "font/woff2"),
  ("mp3", "audio/mpeg"),
  ("wav", "audio/wav"),
  ("oga", "audio/ogg"),
  ("weba", "audio/webm"),
  ("mp4", "video/mp4"),
  ("mpeg", "video/mpeg"),
  ("webm", "video/webm"),
  ("prbm", "application/octet-stream")]

/-- Older worker `getMimeType`: last dot-separated component, lower-cased,
looked up in the table, defaulting to `application/octet-stream`. -/
def getMimeType (path : String) : String :=
  let ext := toLowerStr ((splitStr path '.').getLastD "")
  match MIME_TYPES.find? (fun p => p.1 = ext) with
  | some p => p.2
  | none => "application/octet-stream"

/-- Files that BlueMap always stores with a .gz extension (older worker). -/
def GZ_ONLY_EXTENSIONS : List String := [".prbm"]

/-- File names that BlueMap always stores with a .gz extension (older worker). -/
def GZ_ONLY_FILENAMES : List String := ["textures.json"]

/-- Tile-path test of the older worker, `^maps\/[^/]+\/tiles\/`. -/
def isTilePath (path : String) : Bool :=
  match splitStr path '/' with
  | "maps" :: seg :: "tiles" :: _ :: _ => seg ≠ ""
  | _ => false

/-- Should the older worker automatically try appending `.gz` for this
path? Never for a path that already names a `.gz`, else when the path
ends in a compressed-only extension or file name. -/
def shouldTryGz (path : String) : Bool :=
  if strEndsWith path ".gz" then false
  else
    GZ_ONLY_EXTENSIONS.any (fun ext => strEndsWith path ext) ||
    GZ_ONLY_FILENAMES.any (fun nm => strEndsWith path nm)

/-- Older worker `r2Response` (the only response builder it has; the
`gzipped` flag adds `Content-Encoding: gzip`). The worker always passes a
request, so the optional `request?` parameter is modelled as required. -/
def r2Response (object : R2Obj) (contentType : String) (gzipped : Bool)
    (cacheSeconds : Nat) (request : Request) : Resp :=
  let headers := hset [] "Content-Type" contentType
  let headers := hset headers "ETag" object.httpEtag
  let headers := hset headers "Cache-Control" ("public, max-age=" ++ toString cacheSeconds)
  let headers := hset headers "Access-Control-Allow-Origin" "*"
  let headers := if gzipped then hset headers "Content-Encoding" "gzip" else headers
  if inmMatches request.ifNoneMatch object.httpEtag then
    { status := 304, headers := headers, body := none }
  else
    { status := 200, headers := headers, body := some (Body.objectStream object.data) }

/-- Older worker `fetch` handler. -/
def fetch (request : Request) (env : Env) : FetchResult :=
  let path0 := stripLeadingSlash request.pathname
  let path := if path0 = "" ∨ path0 = "/" then "index.html" else path0
  if request.method = Method.OPTIONS then
    { resp := { status := 200,
                headers := [("Access-Control-Allow-Origin", "*"),
                            ("Access-Control-Allow-Methods", "GET, HEAD, OPTIONS"),
                            ("Access-Control-Allow-Headers", "*"),
                            ("Access-Control-Max-Age", "86400")],
                body := none },
      gets := [], lists := [], net := [] }
  else if request.method ≠ Method.GET ∧ request.method ≠ Method.HEAD then
    { resp := { status := 405, headers := [], body := some (Body.text "Method Not Allowed") },
      gets := [], lists := [], net := [] }
  else if isLivePath path && isSet env.origin then
    let target := stripTrailingSlashes (env.origin.getD "") ++ "/" ++ path
    match env.originResp with
    | some proxyRes =>
      { resp := { status := proxyRes.status,
                  headers := hset proxyRes.headers "Access-Control-Allow-Origin" "*",
                  body := some (Body.proxied proxyRes.body) },
        gets := [], lists := [], net := [target] }
    | none =>
      { resp := { status := 502, headers := [],
                  body := some (Body.text "Live server unavailable") },
        gets := [], lists := [], net := [target] }
  else
    let contentType := getMimeType path
    let isMapTile := isTilePath path
    if shouldTryGz path then
      match bucketGet env.store (path ++ ".gz") with
      | some object =>
        { resp := r2Response object contentType true 86400 request,
          gets := [path ++ ".gz"], lists := [], net := [] }
      | none =>
        match bucketGet env.store path with
        | some fallback =>
          { resp := r2Response fallback contentType false 86400 request,
            gets := [path ++ ".gz", path], lists := [], net := [] }
        | none =>
          { resp := if isMapTile then
                      { status := 204,
                        headers := [("Access-Control-Allow-Origin", "*")],
                        body := none }
                    else
                      { status := 404,
                        headers := [("Access-Control-Allow-Origin", "*")],
                        body := some (Body.text "Not Found") },
            gets := [path ++ ".gz", path], lists := [], net := [] }
    else
      match bucketGet env.store path with
      | some object =>
        { resp := r2Response object contentType false 86400 request,
          gets := [path], lists := [], net := [] }
      | none =>
        if !(strEndsWith path ".gz") then
          match bucketGet env.store (path ++ ".gz") with
          | some gzObject =>
            { resp := r2Response gzObject contentType true 86400 request,
              gets := [path, path ++ ".gz"], lists := [], net := [] }
          | none =>
            { resp := if isMapTile then
                        { status := 204,
                          headers := [("Access-Control-Allow-Origin", "*")],
                          body := none }
                      else
                        { status := 404,
                          headers := [("Access-Control-Allow-Origin", "*")],
                          body := some (Body.text "Not Found") },
              gets := [path, path ++ ".gz"], lists := [], net := [] }
        else
          { resp := if isMapTile then
                      { status := 204,
                        headers := [("Access-Control-Allow-Origin", "*")],
                        body := none }
                    else
                      { status := 404,
                        headers := [("Access-Control-Allow-Origin", "*")],
                        body := some (Body.text "Not Found") },
            gets := [path], lists := [], net := [] }

end W1

namespace W2

/-- Newer worker `getMimeType`: suffix-based. -/
def getMimeType (path : String) : String :=
  if strEndsWith path ".prbm" || strEndsWith path ".prbm.gz" then
    "application/octet-stream"
  else if strEndsWith path ".png" then
    "image/png"
  else if strEndsWith path ".json" || strEndsWith path ".json.gz" then
    "application/json"
  else
    "application/octet-stream"

/-- Tile test of the newer worker, `^[^/]+\/tiles\/` over the R2 key
(which has the `maps/` prefix already stripped). -/
def isTileKey (r2Key : String) : Bool :=
  match splitStr r2Key '/' with
  | seg :: "tiles" :: _ :: _ => seg ≠ ""
  | _ => false

/-- Newer worker `r2Response`: plain body, 24h cache, CORS, conditional 304. -/
def r2Response (object : R2Obj) (contentType : String) (request : Request) : Resp :=
  let headers := hset [] "Content-Type" contentType
  let headers := hset headers "ETag" object.httpEtag
  let headers := hset headers "Cache-Control" "public, max-age=86400"
  let headers := hset headers "Access-Control-Allow-Origin" "*"
  if inmMatches request.ifNoneMatch object.httpEtag then
    { status := 304, headers := headers, body := none }
  else
    { status := 200, headers := headers, body := some (Body.objectStream object.data) }

/-- Newer worker `compressedR2Response`: the stored gzip bytes are served
as-is with `Content-Encoding: gzip` (the `encodeBody: "manual"` option
only stops the runtime re-encoding the body; it is invisible here). -/
def compressedR2Response (object : R2Obj) (contentType : String) (request : Request) : Resp :=
  let headers := hset [] "Content-Type" contentType
  let headers := hset headers "Content-Encoding" "gzip"
  let headers := hset headers "ETag" object.httpEtag
  let headers := hset headers "Cache-Control" "public, max-age=86400"
  let headers := hset headers "Access-Control-Allow-Origin" "*"
  if inmMatches request.ifNoneMatch object.httpEtag then
    { status := 304, headers := headers, body := none }
  else
    { status := 200, headers := headers, body := some (Body.objectStream object.data) }

/-- Newer worker `emptyResponse`: empty body, CORS header only. -/
def emptyResponse (status : Nat) : Resp :=
  { status := status, headers := [("Access-Control-Allow-Origin", "*")], body := none }

/-- The exact-key probe, catch-all `.gz` probe, and miss handling that the
newer worker falls through to after (or instead of) the compressed-first
probe. Returns the response together with the keys probed here. -/
def resolveTail (request : Request) (env : Env) (r2Key contentType : String)
    (isTile : Bool) : Resp × List String :=
  match bucketGet env.store r2Key with
  | some object => (r2Response object contentType request, [r2Key])
  | none =>
    if !(strEndsWith r2Key ".gz") then
      match bucketGet env.store (r2Key ++ ".gz") with
      | some gzObject =>
        (compressedR2Response gzObject contentType request, [r2Key, r2Key ++ ".gz"])
      | none =>
        (if isTile then emptyResponse 204 else emptyResponse 404,
         [r2Key, r2Key ++ ".gz"])
    else
      (if isTile then emptyResponse 204 else emptyResponse 404, [r2Key])

/-- Newer worker `fetch` handler (including the `/debug/live` and `/debug`
endpoints, which are dispatched on the raw pathname before anything else). -/
def fetch (request : Request) (env : Env) : FetchResult :=
  if request.pathname = "/debug/live" then
    if !(isSet env.origin) then
      { resp := { status := 500,
                  headers := [("Content-Type", "application/json")],
                  body := some (Body.jsonErr "LIVE_SERVER_ORIGIN is not set") },
        gets := [], lists := [], net := [] }
    else
      let origin := stripTrailingSlashes (env.origin.getD "")
      let testUrl := origin ++ "/maps/world/live/players.json"
      match env.originResp with
      | some res =>
        { resp := { status := 200,
                    headers := [("Content-Type", "application/json")],
                    body := some (Body.debugLiveInfo testUrl res.status res.headers res.body) },
          gets := [], lists := [], net := [testUrl] }
      | none =>
        { resp := { status := 502,
                    headers := [("Content-Type", "application/json")],
                    body := some (Body.debugLiveErr testUrl) },
          gets := [], lists := [], net := [testUrl] }
  else if request.pathname = "/debug" then
    let pfx := searchParamsGet request.query "prefix"
    let max := parseIntJs ((searchParamsGet request.query "max").getD "50")
    let listed := listBucket env.store pfx max
    { resp := { status := 200,
                headers := [("Content-Type", "application/json")],
                body := some (Body.debugList listed.1 listed.2) },
      gets := [], lists := [(pfx, max)], net := [] }
  else if request.method = Method.OPTIONS then
    { resp := { status := 200,
                headers := [("Access-Control-Allow-Origin", "*"),
                            ("Access-Control-Allow-Methods", "GET, HEAD, OPTIONS"),
                            ("Access-Control-Allow-Headers", "*"),
                            ("Access-Control-Max-Age", "86400")],
                body := none },
      gets := [], lists := [], net := [] }
  else if request.method ≠ Method.GET ∧ request.method ≠ Method.HEAD then
    { resp := { status := 405, headers := [], body := some (Body.text "Method Not Allowed") },
      gets := [], lists := [], net := [] }
  else
    let path := stripLeadingSlash request.pathname
    if !(strStartsWith path "maps/") then
      { resp := emptyResponse 404, gets := [], lists := [], net := [] }
    else if isSet env.origin && isLivePath path then
      let origin := stripTrailingSlashes (env.origin.getD "")
      let proxyUrl := origin ++ "/" ++ path
      match env.originResp with
      | some proxyResponse =>
        let responseHeaders := hset proxyResponse.headers "Access-Control-Allow-Origin" "*"
        let responseHeaders := hset responseHeaders "Cache-Control" "public, max-age=5"
        { resp := { status := proxyResponse.status,
                    headers := responseHeaders,
                    body := some (Body.proxied proxyResponse.body) },
          gets := [], lists := [], net := [proxyUrl] }
      | none =>
        { resp := emptyResponse 502, gets := [], lists := [], net := [proxyUrl] }
    else
      let r2Key := strDrop path 5
      let contentType := getMimeType r2Key
      let isTile := isTileKey r2Key
      if strEndsWith r2Key ".prbm" || strEndsWith r2Key "textures.json"
          || strEndsWith r2Key "settings.json" then
        match bucketGet env.store (r2Key ++ ".gz") with
        | some gzObject =>
          { resp := compressedR2Response gzObject contentType request,
            gets := [r2Key ++ ".gz"], lists := [], net := [] }
        | none =>
          let t := resolveTail request env r2Key contentType isTile
          { resp := t.1, gets := (r2Key ++ ".gz") :: t.2, lists := [], net := [] }
      else
        let t := resolveTail request env r2Key contentType isTile
        { resp := t.1, gets := t.2, lists := [], net := [] }

/-- The R2 key the newer worker derives from a request: strip the leading
slash, then drop the `maps/` prefix (five characters). -/
def r2KeyOf (request : Request) : String :=
  strDrop (stripLeadingSlash request.pathname) 5

end W2

/-- A sample stored object used by the concrete witnesses and counterexamples. -/
def sampleObj : R2Obj := { httpEtag := "W/4-abc", size := 10, data := "DATA" }

/-- An environment with no live origin configured and an empty bucket. -/
def emptyEnv : Env := { origin := none, store := [], originResp := none }

/-- A plain GET request for a path: no validator, no Accept header, no query. -/
def getReq (p : String) : Request :=
  { method := Method.GET, pathname := p, ifNoneMatch := none, accept := none, query := [] }

/-- A POST request for a path (stands for any non-GET/HEAD/OPTIONS method). -/
def postReq (p : String) : Request :=
  { method := Method.POST, pathname := p, ifNoneMatch := none, accept := none, query := [] }

/-- An OPTIONS (CORS preflight) request for a path. -/
def optionsReq (p : String) : Request :=
  { method := Method.OPTIONS, pathname := p, ifNoneMatch := none, accept := none, query := [] }

/-- Environment whose bucket holds only `index.html`, no live origin. -/
def idxEnv : Env :=
  { origin := none, store := [("index.html", sampleObj)], originResp := none }

/-- Environment whose bucket holds a live-data object, no live origin. -/
def liveStoreEnv : Env :=
  { origin := none, store := [("world/live/players.json", sampleObj)], originResp := none }

/-- Environment with a live origin configured whose outbound fetch fails. -/
def liveErrEnv : Env :=
  { origin := some "http://mc:8100", store := [], originResp := none }

/-- Environment with a live origin configured that answers 200 with a
long-lived Cache-Control header of its own. -/
def liveOkEnv : Env :=
  { origin := some "http://mc:8100", store := [],
    originResp := some { status := 200,
                         headers := [("Cache-Control", "public, max-age=99999")],
                         body := "[]" } }

/-- Environment whose bucket holds only the compressed textures file
(keys without the maps/ prefix, as the newer worker stores them). -/
def texEnv : Env :=
  { origin := none, store := [("world/textures.json.gz", sampleObj)], originResp := none }

/-- Environment for the older worker: compressed textures file stored
under the full request path. -/
def w1TexEnv : Env :=
  { origin := none, store := [("maps/world/textures.json.gz", sampleObj)],
    originResp := none }

/-- Environment whose bucket holds only a plain (uncompressed) tile. -/
def tilePlainEnv : Env :=
  { origin := none, store := [("world/tiles/0/x0/z0.prbm", sampleObj)],
    originResp := none }

/-- Environment for the older worker: a plain per-map settings.json. -/
def w1SettingsEnv : Env :=
  { origin := none, store := [("maps/world/settings.json", sampleObj)],
    originResp := none }

/-- A GET request carrying an If-None-Match validator equal to the sample
object ETag. -/
def inmReq : Request :=
  { method := Method.GET, pathname := "/maps/world/textures.json",
    ifNoneMatch := some "W/4-abc", accept := none, query := [] }

theorem hget_nil (j : String) : hget [] j = none := rfl

theorem hget_hset_self (hs : List (String × String)) (k v : String) :
    hget (hset hs k v) k = some v := by
  induction hs with
  | nil => simp [hget, hset]
  | cons p t ih =>
    by_cases hc : hName p.1 = hName k
    · simp [hget, hset, List.filter_cons, hc]
    · simp [hget, hset, List.filter_cons, List.find?_cons, hc]

theorem hget_hset_other (hs : List (String × String)) (k v j : String)
    (h : hName j ≠ hName k) : hget (hset hs k v) j = hget hs j := by
  induction hs with
  | nil => simp [hget, hset, Ne.symm h]
  | cons p t ih =>
    by_cases hc : hName p.1 = hName k
    · by_cases hpj : hName p.1 = hName j
      · exact absurd (hpj.symm.trans hc) h
      · simpa [hget, hset, List.filter_cons, List.find?_cons, hc, hpj, Ne.symm h] using ih
    · by_cases hpj : hName p.1 = hName j
      · simp [hget, hset, List.filter_cons, List.find?_cons, hc, hpj, h, Ne.symm h]
      · simpa [hget, hset, List.filter_cons, List.find?_cons, hc, hpj, Ne.symm h] using ih

theorem w2_compressedR2Response_ok (object : R2Obj) (ct : String) (request : Request)
    (h : inmMatches request.ifNoneMatch object.httpEtag = false) :
    (W2.compressedR2Response object ct request).status = 200 ∧
    (W2.compressedR2Response object ct request).body
      = some (Body.objectStream object.data) ∧
    hget (W2.compressedR2Response object ct request).headers "Content-Type" = some ct ∧
    hget (W2.compressedR2Response object ct request).headers "Content-Encoding"
      = some "gzip" ∧
    hget (W2.compressedR2Response object ct request).headers "ETag"
      = some object.httpEtag ∧
    hget (W2.compressedR2Response object ct request).headers "Cache-Control"
      = some "public, max-age=86400" ∧
    hget (W2.compressedR2Response object ct request).headers "Access-Control-Allow-Origin"
      = some "*" := by
  have hcond : ¬ inmMatches request.ifNoneMatch object.httpEtag = true := by simp [h]
  simp only [W2.compressedR2Response, if_neg hcond, true_and, and_true]
  refine ⟨?_, ?_, ?_, ?_, ?_⟩
  · rw [hget_hset_other _ _ _ _ (by decide), hget_hset_other _ _ _ _ (by decide),
        hget_hset_other _ _ _ _ (by decide), hget_hset_other _ _ _ _ (by decide),
        hget_hset_self]
  · rw [hget_hset_other _ _ _ _ (by decide), hget_hset_other _ _ _ _ (by decide),
        hget_hset_other _ _ _ _ (by decide), hget_hset_self]
  · rw [hget_hset_other _ _ _ _ (by decide), hget_hset_other _ _ _ _ (by decide),
        hget_hset_self]
  · rw [hget_hset_other _ _ _ _ (by decide), hget_hset_self]
  · rw [hget_hset_self]

theorem w2_r2Response_ok (object : R2Obj) (ct : String) (request : Request)
    (h : inmMatches request.ifNoneMatch object.httpEtag = false) :
    (W2.r2Response object ct request).status = 200 ∧
    (W2.r2Response object ct request).body = some (Body.objectStream object.data) ∧
    hget (W2.r2Response object ct request).headers "Content-Type" = some ct ∧
    hget (W2.r2Response object ct request).headers "Content-Encoding" = none ∧
    hget (W2.r2Response object ct request).headers "ETag" = some object.httpEtag ∧
    hget (W2.r2Response object ct request).headers "Cache-Control"
      = some "public, max-age=86400" ∧
    hget (W2.r2Response object ct request).headers "Access-Control-Allow-Origin"
      = some "*" := by
  have hcond : ¬ inmMatches request.ifNoneMatch object.httpEtag = true := by simp [h]
  simp only [W2.r2Response, if_neg hcond, true_and, and_true]
  refine ⟨?_, ?_, ?_, ?_, ?_⟩
  · rw [hget_hset_other _ _ _ _ (by decide), hget_hset_other _ _ _ _ (by decide),
        hget_hset_other _ _ _ _ (by decide), hget_hset_self]
  · rw [hget_hset_other _ _ _ _ (by decide), hget_hset_other _ _ _ _ (by decide),
        hget_hset_other _ _ _ _ (by decide), hget_hset_other _ _ _ _ (by decide),
        hget_nil]
  · rw [hget_hset_other _ _ _ _ (by decide), hget_hset_other _ _ _ _ (by decide),
        hget_hset_self]
  · rw [hget_hset_other _ _ _ _ (by decide), hget_hset_self]
  · rw [hget_hset_self]

theorem w1_r2Response_ok (object : R2Obj) (ct : String) (gzipped : Bool) (cs : Nat)
    (request : Request)
    (h : inmMatches request.ifNoneMatch object.httpEtag = false) :
    (W1.r2Response object ct gzipped cs request).status = 200 ∧
    (W1.r2Response object ct gzipped cs request).body
      = some (Body.objectStream object.data) ∧
    hget (W1.r2Response object ct gzipped cs request).headers "Content-Type" = some ct ∧
    hget (W1.r2Response object ct gzipped cs request).headers "Content-Encoding"
      = (if gzipped then some "gzip" else none) ∧
    hget (W1.r2Response object ct gzipped cs request).headers "ETag"
      = some object.httpEtag ∧
    hget (W1.r2Response object ct gzipped cs request).headers "Cache-Control"
      = some ("public, max-age=" ++ toString cs) ∧
    hget (W1.r2Response object ct gzipped cs request).headers "Access-Control-Allow-Origin"
      = some "*" := by
  have hcond : ¬ inmMatches request.ifNoneMatch object.httpEtag = true := by simp [h]
  cases gzipped with
  | true =>
    simp only [W1.r2Response, if_neg hcond, Bool.true_eq_false, Bool.false_eq_true,
      if_true, if_false, true_and, and_true]
    refine ⟨?_, ?_, ?_, ?_, ?_⟩
    · rw [hget_hset_other _ _ _ _ (by decide), hget_hset_other _ _ _ _ (by decide),
          hget_hset_other _ _ _ _ (by decide), hget_hset_other _ _ _ _ (by decide),
          hget_hset_self]
    · rw [hget_hset_self]
    · rw [hget_hset_other _ _ _ _ (by decide), hget_hset_other _ _ _ _ (by decide),
          hget_hset_other _ _ _ _ (by decide), hget_hset_self]
    · rw [hget_hset_other _ _ _ _ (by decide), hget_hset_other _ _ _ _ (by decide),
          hget_hset_self]
    · rw [hget_hset_other _ _ _ _ (by decide), hget_hset_self]
  | false =>
    simp only [W1.r2Response, if_neg hcond, Bool.true_eq_false, Bool.false_eq_true,
      if_true, if_false, true_and, and_true]
    refine ⟨?_, ?_, ?_, ?_, ?_⟩
    · rw [hget_hset_other _ _ _ _ (by decide), hget_hset_other _ _ _ _ (by decide),
          hget_hset_other _ _ _ _ (by decide), hget_hset_self]
    · rw [hget_hset_other _ _ _ _ (by decide), hget_hset_other _ _ _ _ (by decide),
          hget_hset_other _ _ _ _ (by decide), hget_hset_other _ _ _ _ (by decide),
          hget_nil]
    · rw [hget_hset_other _ _ _ _ (by decide), hget_hset_other _ _ _ _ (by decide),
          hget_hset_self]
    · rw [hget_hset_other _ _ _ _ (by decide), hget_hset_self]
    · rw [hget_hset_self]

/-- C6: the claim states that every error response produced by the handler
(405 method-not-allowed, 404 hard-absent, 204 soft-absent and 502
upstream-unavailable) carries the Access-Control-Allow-Origin header. The
code contradicts it (and its own README, which says the worker sets the
header on all responses): the 405 response of both variants is built with
no headers at all, and so is the 502 live-proxy failure response of the
older variant. -/
theorem c6_cors_missing_on_errors :
    ((W2.fetch (postReq "/maps/world/textures.json") emptyEnv).resp.status = 405 ∧
     hget (W2.fetch (postReq "/maps/world/textures.json") emptyEnv).resp.headers
       "Access-Control-Allow-Origin" = none) ∧
    ((W1.fetch (postReq "/maps/world/textures.json") emptyEnv).resp.status = 405 ∧
     hget (W1.fetch (postReq "/maps/world/textures.json") emptyEnv).resp.headers
       "Access-Control-Allow-Origin" = none) ∧
    ((W1.fetch (getReq "/maps/world/live/players.json") liveErrEnv).resp.status = 502 ∧
     hget (W1.fetch (getReq "/maps/world/live/players.json") liveErrEnv).resp.headers
       "Access-Control-Allow-Origin" = none) := by
  decide

/-- C2 counterexample: the claim says a compressed-only path gets exactly
two store probes and no key is ever probed twice, but in the newer variant
a .prbm tile request whose gzip and plain candidates are both absent makes
three probes, the gzip key twice. -/
theorem c2_counterexample :
    (W2.fetch (getReq "/maps/world/tiles/0/x0/z0.prbm") emptyEnv).gets =
      ["world/tiles/0/x0/z0.prbm.gz", "world/tiles/0/x0/z0.prbm",
       "world/tiles/0/x0/z0.prbm.gz"] := by
  decide

/-- C4 counterexample: the claim says a live-path request with no origin
configured returns 404 with no store access, but the newer variant falls
through to store resolution: with the live object present in the bucket it
probes the store and answers 200. -/
theorem c4_counterexample :
    (W2.fetch (getReq "/maps/world/live/players.json") liveStoreEnv).resp.status = 200 ∧
    (W2.fetch (getReq "/maps/world/live/players.json") liveStoreEnv).gets
      = ["world/live/players.json"] := by
  decide

/-- C5 counterexample: the claim says the handler overrides Cache-Control
on proxied live responses to a short fixed TTL regardless of the origin,
but the older variant relays the Cache-Control the origin sent. -/
theorem c5_counterexample :
    hget (W1.fetch (getReq "/maps/world/live/players.json") liveOkEnv).resp.headers
      "Cache-Control" = some "public, max-age=99999" := by
  decide

/-- C8 counterexample: the claim says a root-path request is rewritten to
index.html and served from the store, but the newer variant answers 404 to
the root path without probing the store even when index.html is stored. -/
theorem c8_counterexample :
    (W2.fetch (getReq "/") idxEnv).resp.status = 404 ∧
    (W2.fetch (getReq "/") idxEnv).gets = [] := by
  decide

/-- C9 counterexample: the claim says every OPTIONS request short-circuits
into the fixed capability response with no store access, but in the newer
variant an OPTIONS request for /debug is captured by the debug endpoint
first: it lists the store and returns a response without the capability
headers. -/
theorem c9_counterexample :
    (W2.fetch (optionsReq "/debug") emptyEnv).lists = [(none, some 50)] ∧
    hget (W2.fetch (optionsReq "/debug") emptyEnv).resp.headers
      "Access-Control-Allow-Methods" = none := by
  decide

/-- C1: for every request whose path is in the compressed-only set (ending
in .prbm, or naming the per-map configuration files textures.json or
settings.json) where the gzip variant of the key is stored (and the plain
key is not), both worker variants answer 200 with Content-Encoding: gzip
and a Content-Type derived from the logical uncompressed path — never from
the literal .gz extension — serving the stored bytes as-is. -/
theorem c1_compressed_only_gz_served :
    (∀ (request : Request) (env : Env) (gzObject : R2Obj),
      (request.method = Method.GET ∨ request.method = Method.HEAD) →
      request.pathname ≠ "/debug/live" →
      request.pathname ≠ "/debug" →
      strStartsWith (stripLeadingSlash request.pathname) "maps/" = true →
      (isSet env.origin && isLivePath (stripLeadingSlash request.pathname)) = false →
      (strEndsWith (W2.r2KeyOf request) ".prbm"
        || strEndsWith (W2.r2KeyOf request) "textures.json"
        || strEndsWith (W2.r2KeyOf request) "settings.json") = true →
      bucketGet env.store (W2.r2KeyOf request) = none →
      bucketGet env.store (W2.r2KeyOf request ++ ".gz") = some gzObject →
      inmMatches request.ifNoneMatch gzObject.httpEtag = false →
      (W2.fetch request env).resp.status = 200 ∧
      hget (W2.fetch request env).resp.headers "Content-Encoding" = some "gzip" ∧
      hget (W2.fetch request env).resp.headers "Content-Type"
        = some (W2.getMimeType (W2.r2KeyOf request)) ∧
      (W2.fetch request env).resp.body = some (Body.objectStream gzObject.data)) ∧
    (∀ (request : Request) (env : Env) (gzObject : R2Obj),
      (request.method = Method.GET ∨ request.method = Method.HEAD) →
      stripLeadingSlash request.pathname ≠ "" →
      stripLeadingSlash request.pathname ≠ "/" →
      (isLivePath (stripLeadingSlash request.pathname) && isSet env.origin) = false →
      strEndsWith (stripLeadingSlash request.pathname) ".gz" = false →
      (strEndsWith (stripLeadingSlash request.pathname) ".prbm"
        || strEndsWith (stripLeadingSlash request.pathname) "textures.json"
        || strEndsWith (stripLeadingSlash request.pathname) "settings.json") = true →
      bucketGet env.store (stripLeadingSlash request.pathname) = none →
      bucketGet env.store (stripLeadingSlash request.pathname ++ ".gz") = some gzObject →
      inmMatches request.ifNoneMatch gzObject.httpEtag = false →
      (W1.fetch request env).resp.status = 200 ∧
      hget (W1.fetch request env).resp.headers "Content-Encoding" = some "gzip" ∧
      hget (W1.fetch request env).resp.headers "Content-Type"
        = some (W1.getMimeType (stripLeadingSlash request.pathname)) ∧
      (W1.fetch request env).resp.body = some (Body.objectStream gzObject.data)) := by
  constructor
  · intro request env gzObject hm hdl hd hmaps hlive hco hplain hgz hinm
    simp only [W2.r2KeyOf] at hco hplain hgz ⊢
    have hres := w2_compressedR2Response_ok gzObject
      (W2.getMimeType (strDrop (stripLeadingSlash request.pathname) 5)) request hinm
    rcases hm with hm | hm <;>
      simp [W2.fetch, hm, hdl, hd, hmaps, hlive, hco, hgz] <;>
      exact ⟨hres.1, hres.2.2.2.1, hres.2.2.1, hres.2.1⟩
  · intro request env gzObject hm h1 h2 hlive hgzext hco hplain hgz hinm
    have hres := w1_r2Response_ok gzObject
      (W1.getMimeType (stripLeadingSlash request.pathname)) true 86400 request hinm
    cases hst : W1.shouldTryGz (stripLeadingSlash request.pathname) with
    | true =>
      rcases hm with hm | hm <;>
        simp [W1.fetch, hm, h1, h2, hlive, hst, hgz] <;>
        exact ⟨hres.1, hres.2.2.2.1, hres.2.2.1, hres.2.1⟩
    | false =>
      rcases hm with hm | hm <;>
        simp [W1.fetch, hm, h1, h2, hlive, hst, hplain, hgzext, hgz] <;>
        exact ⟨hres.1, hres.2.2.2.1, hres.2.2.1, hres.2.1⟩

/-- C10: a request whose path already ends in .gz and whose exact key is
stored is resolved with a single store probe (the suffix is never appended
again) and served 200 with no Content-Encoding header, in both variants;
in the newer variant the suffix-based MIME table gives a .json.gz request
Content-Type application/json even though the body stays compressed. -/
theorem c10_gz_exact_key :
    (∀ (request : Request) (env : Env) (object : R2Obj),
      (request.method = Method.GET ∨ request.method = Method.HEAD) →
      request.pathname ≠ "/debug/live" →
      request.pathname ≠ "/debug" →
      strStartsWith (stripLeadingSlash request.pathname) "maps/" = true →
      (isSet env.origin && isLivePath (stripLeadingSlash request.pathname)) = false →
      strEndsWith (W2.r2KeyOf request) ".gz" = true →
      strEndsWith (W2.r2KeyOf request) ".prbm" = false →
      strEndsWith (W2.r2KeyOf request) "textures.json" = false →
      strEndsWith (W2.r2KeyOf request) "settings.json" = false →
      bucketGet env.store (W2.r2KeyOf request) = some object →
      inmMatches request.ifNoneMatch object.httpEtag = false →
      (W2.fetch request env).gets = [W2.r2KeyOf request] ∧
      (W2.fetch request env).resp.status = 200 ∧
      hget (W2.fetch request env).resp.headers "Content-Encoding" = none ∧
      hget (W2.fetch request env).resp.headers "Content-Type"
        = some (W2.getMimeType (W2.r2KeyOf request)) ∧
      (W2.fetch request env).resp.body = some (Body.objectStream object.data)) ∧
    (∀ (s : String),
      strEndsWith s ".json.gz" = true →
      strEndsWith s ".prbm" = false →
      strEndsWith s ".prbm.gz" = false →
      strEndsWith s ".png" = false →
      W2.getMimeType s = "application/json") ∧
    (∀ (request : Request) (env : Env) (object : R2Obj),
      (request.method = Method.GET ∨ request.method = Method.HEAD) →
      stripLeadingSlash request.pathname ≠ "" →
      stripLeadingSlash request.pathname ≠ "/" →
      (isLivePath (stripLeadingSlash request.pathname) && isSet env.origin) = false →
      strEndsWith (stripLeadingSlash request.pathname) ".gz" = true →
      bucketGet env.store (stripLeadingSlash request.pathname) = some object →
      inmMatches request.ifNoneMatch object.httpEtag = false →
      (W1.fetch request env).gets = [stripLeadingSlash request.pathname] ∧
      (W1.fetch request env).resp.status = 200 ∧
      hget (W1.fetch request env).resp.headers "Content-Encoding" = none ∧
      (W1.fetch request env).resp.body = some (Body.objectStream object.data)) := by
  refine ⟨?_, ?_, ?_⟩
  · intro request env object hm hdl hd hmaps hlive hgzext hprbm htex hsett hobj hinm
    simp only [W2.r2KeyOf] at hgzext hprbm htex hsett hobj ⊢
    have hres := w2_r2Response_ok object
      (W2.getMimeType (strDrop (stripLeadingSlash request.pathname) 5)) request hinm
    rcases hm with hm | hm <;>
      simp [W2.fetch, W2.resolveTail, hm, hdl, hd, hmaps, hlive, hgzext, hprbm, htex,
        hsett, hobj] <;>
      exact ⟨hres.1, hres.2.2.2.1, hres.2.2.1, hres.2.1⟩
  · intro s hjson hprbm hprbmgz hpng
    simp [W2.getMimeType, hjson, hprbm, hprbmgz, hpng]
  · intro request env object hm h1 h2 hlive hgzext hobj hinm
    have hst : W1.shouldTryGz (stripLeadingSlash request.pathname) = false := by
      simp [W1.shouldTryGz, hgzext]
    have hres := w1_r2Response_ok object
      (W1.getMimeType (stripLeadingSlash request.pathname)) false 86400 request hinm
    rcases hm with hm | hm <;>
      simp [W1.fetch, hm, h1, h2, hlive, hst, hgzext, hobj] <;>
      exact ⟨hres.1, hres.2.2.2.1, hres.2.1⟩

/-- C3: when every candidate key is absent from the store, a tile path
resolves to exactly 204 — empty body, CORS allow-all header, no
Content-Encoding, no Cache-Control — and a non-tile, non-live path to 404
with the CORS header, in both variants. -/
theorem c3_miss_statuses :
    (∀ (request : Request) (env : Env),
      (request.method = Method.GET ∨ request.method = Method.HEAD) →
      request.pathname ≠ "/debug/live" →
      request.pathname ≠ "/debug" →
      strStartsWith (stripLeadingSlash request.pathname) "maps/" = true →
      (isSet env.origin && isLivePath (stripLeadingSlash request.pathname)) = false →
      bucketGet env.store (W2.r2KeyOf request) = none →
      bucketGet env.store (W2.r2KeyOf request ++ ".gz") = none →
      ((W2.isTileKey (W2.r2KeyOf request) = true →
        (W2.fetch request env).resp.status = 204 ∧
        (W2.fetch request env).resp.body = none ∧
        (W2.fetch request env).resp.headers = [("Access-Control-Allow-Origin", "*")] ∧
        hget (W2.fetch request env).resp.headers "Content-Encoding" = none ∧
        hget (W2.fetch request env).resp.headers "Cache-Control" = none ∧
        hget (W2.fetch request env).resp.headers "Access-Control-Allow-Origin"
          = some "*") ∧
       (W2.isTileKey (W2.r2KeyOf request) = false →
        (W2.fetch request env).resp.status = 404 ∧
        hget (W2.fetch request env).resp.headers "Access-Control-Allow-Origin"
          = some "*"))) ∧
    (∀ (request : Request) (env : Env),
      (request.method = Method.GET ∨ request.method = Method.HEAD) →
      stripLeadingSlash request.pathname ≠ "" →
      stripLeadingSlash request.pathname ≠ "/" →
      (isLivePath (stripLeadingSlash request.pathname) && isSet env.origin) = false →
      bucketGet env.store (stripLeadingSlash request.pathname) = none →
      bucketGet env.store (stripLeadingSlash request.pathname ++ ".gz") = none →
      ((W1.isTilePath (stripLeadingSlash request.pathname) = true →
        (W1.fetch request env).resp.status = 204 ∧
        (W1.fetch request env).resp.body = none ∧
        (W1.fetch request env).resp.headers = [("Access-Control-Allow-Origin", "*")] ∧
        hget (W1.fetch request env).resp.headers "Content-Encoding" = none ∧
        hget (W1.fetch request env).resp.headers "Cache-Control" = none ∧
        hget (W1.fetch request env).resp.headers "Access-Control-Allow-Origin"
          = some "*") ∧
       (W1.isTilePath (stripLeadingSlash request.pathname) = false →
        (W1.fetch request env).resp.status = 404 ∧
        hget (W1.fetch request env).resp.headers "Access-Control-Allow-Origin"
          = some "*"))) := by
  constructor
  · intro request env hm hdl hd hmaps hlive hplain hgz
    simp only [W2.r2KeyOf] at hplain hgz ⊢
    cases hco : (strEndsWith (strDrop (stripLeadingSlash request.pathname) 5) ".prbm"
        || strEndsWith (strDrop (stripLeadingSlash request.pathname) 5) "textures.json"
        || strEndsWith (strDrop (stripLeadingSlash request.pathname) 5) "settings.json") with
    | true =>
      cases hgzend : strEndsWith (strDrop (stripLeadingSlash request.pathname) 5) ".gz" with
      | true =>
        rcases hm with hm | hm <;>
          cases htile : W2.isTileKey (strDrop (stripLeadingSlash request.pathname) 5) <;>
          simp [W2.fetch, W2.resolveTail, W2.emptyResponse, hm, hdl, hd, hmaps, hlive,
            hco, hgzend, htile, hplain, hgz] <;>
          decide
      | false =>
        rcases hm with hm | hm <;>
          cases htile : W2.isTileKey (strDrop (stripLeadingSlash request.pathname) 5) <;>
          simp [W2.fetch, W2.resolveTail, W2.emptyResponse, hm, hdl, hd, hmaps, hlive,
            hco, hgzend, htile, hplain, hgz] <;>
          decide
    | false =>
      cases hgzend : strEndsWith (strDrop (stripLeadingSlash request.pathname) 5) ".gz" with
      | true =>
        rcases hm with hm | hm <;>
          cases htile : W2.isTileKey (strDrop (stripLeadingSlash request.pathname) 5) <;>
          simp [W2.fetch, W2.resolveTail, W2.emptyResponse, hm, hdl, hd, hmaps, hlive,
            hco, hgzend, htile, hplain, hgz] <;>
          decide
      | false =>
        rcases hm with hm | hm <;>
          cases htile : W2.isTileKey (strDrop (stripLeadingSlash request.pathname) 5) <;>
          simp [W2.fetch, W2.resolveTail, W2.emptyResponse, hm, hdl, hd, hmaps, hlive,
            hco, hgzend, htile, hplain, hgz] <;>
          decide
  · intro request env hm h1 h2 hlive hplain hgz
    cases hst : W1.shouldTryGz (stripLeadingSlash request.pathname) with
    | true =>
      rcases hm with hm | hm <;>
        cases htile : W1.isTilePath (stripLeadingSlash request.pathname) <;>
        simp [W1.fetch, hm, h1, h2, hlive, hst, htile, hplain, hgz] <;>
        decide
    | false =>
      cases hgzend : strEndsWith (stripLeadingSlash request.pathname) ".gz" with
      | true =>
        rcases hm with hm | hm <;>
          cases htile : W1.isTilePath (stripLeadingSlash request.pathname) <;>
          simp [W1.fetch, hm, h1, h2, hlive, hst, hgzend, htile, hplain, hgz] <;>
          decide
      | false =>
        rcases hm with hm | hm <;>
          cases htile : W1.isTilePath (stripLeadingSlash request.pathname) <;>
          simp [W1.fetch, hm, h1, h2, hlive, hst, hgzend, htile, hplain, hgz] <;>
          decide

/-- C2 (amended): candidates for a compressed-only path are probed gzip
key first, then plain key, stopping at the first hit, in both variants;
but (a) in the newer variant, when both candidates miss, the catch-all
re-probes the gzip key a third time, and (b) in the older variant the
compressed-only set does not include settings.json, whose requests are
probed plain key first and gzip key second. -/
theorem c2_probe_traces :
    (∀ (request : Request) (env : Env),
      (request.method = Method.GET ∨ request.method = Method.HEAD) →
      request.pathname ≠ "/debug/live" →
      request.pathname ≠ "/debug" →
      strStartsWith (stripLeadingSlash request.pathname) "maps/" = true →
      (isSet env.origin && isLivePath (stripLeadingSlash request.pathname)) = false →
      (strEndsWith (W2.r2KeyOf request) ".prbm"
        || strEndsWith (W2.r2KeyOf request) "textures.json"
        || strEndsWith (W2.r2KeyOf request) "settings.json") = true →
      ((∀ gzObject, bucketGet env.store (W2.r2KeyOf request ++ ".gz") = some gzObject →
        (W2.fetch request env).gets = [W2.r2KeyOf request ++ ".gz"]) ∧
       (∀ object, bucketGet env.store (W2.r2KeyOf request ++ ".gz") = none →
        bucketGet env.store (W2.r2KeyOf request) = some object →
        (W2.fetch request env).gets
          = [W2.r2KeyOf request ++ ".gz", W2.r2KeyOf request]) ∧
       (bucketGet env.store (W2.r2KeyOf request ++ ".gz") = none →
        bucketGet env.store (W2.r2KeyOf request) = none →
        strEndsWith (W2.r2KeyOf request) ".gz" = false →
        (W2.fetch request env).gets
          = [W2.r2KeyOf request ++ ".gz", W2.r2KeyOf request,
             W2.r2KeyOf request ++ ".gz"]))) ∧
    (∀ (request : Request) (env : Env),
      (request.method = Method.GET ∨ request.method = Method.HEAD) →
      stripLeadingSlash request.pathname ≠ "" →
      stripLeadingSlash request.pathname ≠ "/" →
      (isLivePath (stripLeadingSlash request.pathname) && isSet env.origin) = false →
      W1.shouldTryGz (stripLeadingSlash request.pathname) = true →
      ((∀ gzObject,
        bucketGet env.store (stripLeadingSlash request.pathname ++ ".gz") = some gzObject →
        (W1.fetch request env).gets = [stripLeadingSlash request.pathname ++ ".gz"]) ∧
       (bucketGet env.store (stripLeadingSlash request.pathname ++ ".gz") = none →
        (W1.fetch request env).gets
          = [stripLeadingSlash request.pathname ++ ".gz",
             stripLeadingSlash request.pathname]))) ∧
    (∀ (request : Request) (env : Env),
      (request.method = Method.GET ∨ request.method = Method.HEAD) →
      stripLeadingSlash request.pathname ≠ "" →
      stripLeadingSlash request.pathname ≠ "/" →
      (isLivePath (stripLeadingSlash request.pathname) && isSet env.origin) = false →
      strEndsWith (stripLeadingSlash request.pathname) "settings.json" = true →
      W1.shouldTryGz (stripLeadingSlash request.pathname) = false →
      strEndsWith (stripLeadingSlash request.pathname) ".gz" = false →
      ((∀ object, bucketGet env.store (stripLeadingSlash request.pathname) = some object →
        (W1.fetch request env).gets = [stripLeadingSlash request.pathname]) ∧
       (bucketGet env.store (stripLeadingSlash request.pathname) = none →
        (W1.fetch request env).gets
          = [stripLeadingSlash request.pathname,
             stripLeadingSlash request.pathname ++ ".gz"]))) := by
  refine ⟨?_, ?_, ?_⟩
  · intro request env hm hdl hd hmaps hlive hco
    simp only [W2.r2KeyOf] at hco ⊢
    refine ⟨?_, ?_, ?_⟩
    · intro gzObject hgz
      rcases hm with hm | hm <;>
        simp [W2.fetch, hm, hdl, hd, hmaps, hlive, hco, hgz]
    · intro object hgz hplain
      rcases hm with hm | hm <;>
        simp [W2.fetch, W2.resolveTail, hm, hdl, hd, hmaps, hlive, hco, hgz, hplain]
    · intro hgz hplain hgzend
      rcases hm with hm | hm <;>
        simp [W2.fetch, W2.resolveTail, hm, hdl, hd, hmaps, hlive, hco, hgz, hplain,
          hgzend]
  · intro request env hm h1 h2 hlive hst
    refine ⟨?_, ?_⟩
    · intro gzObject hgz
      rcases hm with hm | hm <;>
        simp [W1.fetch, hm, h1, h2, hlive, hst, hgz]
    · intro hgz
      cases hplain : bucketGet env.store (stripLeadingSlash request.pathname) with
      | some object =>
        rcases hm with hm | hm <;>
          simp [W1.fetch, hm, h1, h2, hlive, hst, hgz, hplain]
      | none =>
        rcases hm with hm | hm <;>
          simp [W1.fetch, hm, h1, h2, hlive, hst, hgz, hplain]
  · intro request env hm h1 h2 hlive hsett hst hgzend
    refine ⟨?_, ?_⟩
    · intro object hplain
      rcases hm with hm | hm <;>
        simp [W1.fetch, hm, h1, h2, hlive, hst, hplain]
    · intro hplain
      cases hgz : bucketGet env.store (stripLeadingSlash request.pathname ++ ".gz") with
      | some gzObject =>
        rcases hm with hm | hm <;>
          simp [W1.fetch, hm, h1, h2, hlive, hst, hgzend, hplain, hgz]
      | none =>
        rcases hm with hm | hm <;>
          simp [W1.fetch, hm, h1, h2, hlive, hst, hgzend, hplain, hgz]

/-- C4 (amended): a live-path request with no origin configured makes no
network call, but neither variant treats it as an immediate 404 — both
fall through to ordinary store resolution, probing the store (plain key
then gzip key) and answering 404 only when no matching object exists. -/
theorem c4_live_unconfigured_fallthrough :
    (∀ (request : Request) (env : Env),
      (request.method = Method.GET ∨ request.method = Method.HEAD) →
      request.pathname ≠ "/debug/live" →
      request.pathname ≠ "/debug" →
      strStartsWith (stripLeadingSlash request.pathname) "maps/" = true →
      isLivePath (stripLeadingSlash request.pathname) = true →
      isSet env.origin = false →
      strEndsWith (W2.r2KeyOf request) ".prbm" = false →
      strEndsWith (W2.r2KeyOf request) "textures.json" = false →
      strEndsWith (W2.r2KeyOf request) "settings.json" = false →
      strEndsWith (W2.r2KeyOf request) ".gz" = false →
      W2.isTileKey (W2.r2KeyOf request) = false →
      bucketGet env.store (W2.r2KeyOf request) = none →
      bucketGet env.store (W2.r2KeyOf request ++ ".gz") = none →
      (W2.fetch request env).resp.status = 404 ∧
      (W2.fetch request env).net = [] ∧
      (W2.fetch request env).gets
        = [W2.r2KeyOf request, W2.r2KeyOf request ++ ".gz"]) ∧
    (∀ (request : Request) (env : Env),
      (request.method = Method.GET ∨ request.method = Method.HEAD) →
      stripLeadingSlash request.pathname ≠ "" →
      stripLeadingSlash request.pathname ≠ "/" →
      isLivePath (stripLeadingSlash request.pathname) = true →
      isSet env.origin = false →
      W1.shouldTryGz (stripLeadingSlash request.pathname) = false →
      strEndsWith (stripLeadingSlash request.pathname) ".gz" = false →
      W1.isTilePath (stripLeadingSlash request.pathname) = false →
      bucketGet env.store (stripLeadingSlash request.pathname) = none →
      bucketGet env.store (stripLeadingSlash request.pathname ++ ".gz") = none →
      (W1.fetch request env).resp.status = 404 ∧
      (W1.fetch request env).net = [] ∧
      (W1.fetch request env).gets
        = [stripLeadingSlash request.pathname,
           stripLeadingSlash request.pathname ++ ".gz"]) := by
  constructor
  · intro request env hm hdl hd hmaps hlivepath horigin hprbm htex hsett hgzend htile
      hplain hgz
    simp only [W2.r2KeyOf] at hprbm htex hsett hgzend htile hplain hgz ⊢
    rcases hm with hm | hm <;>
      simp [W2.fetch, W2.resolveTail, W2.emptyResponse, hm, hdl, hd, hmaps, horigin,
        hprbm, htex, hsett, hgzend, htile, hplain, hgz]
  · intro request env hm h1 h2 hlivepath horigin hst hgzend htile hplain hgz
    rcases hm with hm | hm <;>
      simp [W1.fetch, hm, h1, h2, horigin, hst, hgzend, htile, hplain, hgz]

/-- C5 (amended): with a live origin configured, both variants relay the
origin status and body unchanged and attach the CORS allow-all header with
a single outbound call and no retry and no store access; the newer variant
additionally overrides Cache-Control to the short fixed TTL of 5 seconds
regardless of what the origin returned, while the older variant relays the
origin headers unchanged apart from setting the CORS header; a transport
error yields 502 from both. -/
theorem c5_live_proxy_behavior :
    (∀ (request : Request) (env : Env) (r : OriginResp),
      (request.method = Method.GET ∨ request.method = Method.HEAD) →
      request.pathname ≠ "/debug/live" →
      request.pathname ≠ "/debug" →
      strStartsWith (stripLeadingSlash request.pathname) "maps/" = true →
      (isSet env.origin && isLivePath (stripLeadingSlash request.pathname)) = true →
      env.originResp = some r →
      (W2.fetch request env).resp.status = r.status ∧
      (W2.fetch request env).resp.body = some (Body.proxied r.body) ∧
      hget (W2.fetch request env).resp.headers "Cache-Control"
        = some "public, max-age=5" ∧
      hget (W2.fetch request env).resp.headers "Access-Control-Allow-Origin"
        = some "*" ∧
      (W2.fetch request env).gets = [] ∧
      (W2.fetch request env).net
        = [stripTrailingSlashes (env.origin.getD "") ++ "/"
            ++ stripLeadingSlash request.pathname]) ∧
    (∀ (request : Request) (env : Env),
      (request.method = Method.GET ∨ request.method = Method.HEAD) →
      request.pathname ≠ "/debug/live" →
      request.pathname ≠ "/debug" →
      strStartsWith (stripLeadingSlash request.pathname) "maps/" = true →
      (isSet env.origin && isLivePath (stripLeadingSlash request.pathname)) = true →
      env.originResp = none →
      (W2.fetch request env).resp.status = 502 ∧
      hget (W2.fetch request env).resp.headers "Access-Control-Allow-Origin"
        = some "*" ∧
      (W2.fetch request env).gets = [] ∧
      (W2.fetch request env).net
        = [stripTrailingSlashes (env.origin.getD "") ++ "/"
            ++ stripLeadingSlash request.pathname]) ∧
    (∀ (request : Request) (env : Env) (r : OriginResp),
      (request.method = Method.GET ∨ request.method = Method.HEAD) →
      stripLeadingSlash request.pathname ≠ "" →
      stripLeadingSlash request.pathname ≠ "/" →
      (isLivePath (stripLeadingSlash request.pathname) && isSet env.origin) = true →
      env.originResp = some r →
      (W1.fetch request env).resp.status = r.status ∧
      (W1.fetch request env).resp.body = some (Body.proxied r.body) ∧
      (W1.fetch request env).resp.headers
        = hset r.headers "Access-Control-Allow-Origin" "*" ∧
      hget (W1.fetch request env).resp.headers "Access-Control-Allow-Origin"
        = some "*" ∧
      (W1.fetch request env).gets = [] ∧
      (W1.fetch request env).net
        = [stripTrailingSlashes (env.origin.getD "") ++ "/"
            ++ stripLeadingSlash request.pathname]) ∧
    (∀ (request : Request) (env : Env),
      (request.method = Method.GET ∨ request.method = Method.HEAD) →
      stripLeadingSlash request.pathname ≠ "" →
      stripLeadingSlash request.pathname ≠ "/" →
      (isLivePath (stripLeadingSlash request.pathname) && isSet env.origin) = true →
      env.originResp = none →
      (W1.fetch request env).resp.status = 502 ∧
      (W1.fetch request env).resp.body = some (Body.text "Live server unavailable") ∧
      (W1.fetch request env).resp.headers = [] ∧
      (W1.fetch request env).gets = [] ∧
      (W1.fetch request env).net
        = [stripTrailingSlashes (env.origin.getD "") ++ "/"
            ++ stripLeadingSlash request.pathname]) := by
  refine ⟨?_, ?_, ?_, ?_⟩
  · intro request env r hm hdl hd hmaps hlive hres
    rcases hm with hm | hm <;>
      simp [W2.fetch, hm, hdl, hd, hmaps, hlive, hres] <;>
      exact ⟨hget_hset_self _ _ _,
        (hget_hset_other _ _ _ _ (by decide)).trans (hget_hset_self _ _ _)⟩
  · intro request env hm hdl hd hmaps hlive hres
    rcases hm with hm | hm <;>
      simp [W2.fetch, W2.emptyResponse, hm, hdl, hd, hmaps, hlive, hres] <;>
      decide
  · intro request env r hm h1 h2 hlive hres
    rcases hm with hm | hm <;>
      simp [W1.fetch, hm, h1, h2, hlive, hres] <;>
      exact hget_hset_self _ _ _
  · intro request env hm h1 h2 hlive hres
    rcases hm with hm | hm <;>
      simp [W1.fetch, hm, h1, h2, hlive, hres]

/-- C7: when a request carrying an If-None-Match validator equal to the
stored object ETag resolves to a found object, every response builder
(the older variant r2Response for both the compressed and the plain case,
and the newer variant r2Response and compressedR2Response) answers 304
with no body and the same header set the 200 response would have had. -/
theorem c7_conditional_304 :
    (∀ (object : R2Obj) (ct : String) (gzipped : Bool) (cs : Nat) (request : Request),
      request.ifNoneMatch = some object.httpEtag →
      object.httpEtag ≠ "" →
      (W1.r2Response object ct gzipped cs request).status = 304 ∧
      (W1.r2Response object ct gzipped cs request).body = none ∧
      (W1.r2Response object ct gzipped cs request).headers
        = (W1.r2Response object ct gzipped cs
            { request with ifNoneMatch := none }).headers) ∧
    (∀ (object : R2Obj) (ct : String) (request : Request),
      request.ifNoneMatch = some object.httpEtag →
      object.httpEtag ≠ "" →
      (W2.r2Response object ct request).status = 304 ∧
      (W2.r2Response object ct request).body = none ∧
      (W2.r2Response object ct request).headers
        = (W2.r2Response object ct { request with ifNoneMatch := none }).headers) ∧
    (∀ (object : R2Obj) (ct : String) (request : Request),
      request.ifNoneMatch = some object.httpEtag →
      object.httpEtag ≠ "" →
      (W2.compressedR2Response object ct request).status = 304 ∧
      (W2.compressedR2Response object ct request).body = none ∧
      (W2.compressedR2Response object ct request).headers
        = (W2.compressedR2Response object ct
            { request with ifNoneMatch := none }).headers) := by
  refine ⟨?_, ?_, ?_⟩
  · intro object ct gzipped cs request hinm hne
    have hmatch : inmMatches request.ifNoneMatch object.httpEtag = true := by
      simp [inmMatches, hinm, hne]
    have hnone : inmMatches none object.httpEtag = false := rfl
    simp [W1.r2Response, hmatch, hnone]
  · intro object ct request hinm hne
    have hmatch : inmMatches request.ifNoneMatch object.httpEtag = true := by
      simp [inmMatches, hinm, hne]
    have hnone : inmMatches none object.httpEtag = false := rfl
    simp [W2.r2Response, hmatch, hnone]
  · intro object ct request hinm hne
    have hmatch : inmMatches request.ifNoneMatch object.httpEtag = true := by
      simp [inmMatches, hinm, hne]
    have hnone : inmMatches none object.httpEtag = false := rfl
    simp [W2.compressedR2Response, hmatch, hnone]

/-- C8 (amended): the older variant rewrites an empty or root path to the
entry-document key index.html and serves that object from the store with
200 and the HTML content type; the newer variant instead answers 404 to
any empty or root path without touching the store (its entry document is
served by the static-asset layer outside this handler). -/
theorem c8_root_entry_document :
    (∀ (request : Request) (env : Env) (object : R2Obj),
      (request.method = Method.GET ∨ request.method = Method.HEAD) →
      (request.pathname = "" ∨ request.pathname = "/") →
      (isLivePath "index.html" && isSet env.origin) = false →
      bucketGet env.store "index.html" = some object →
      inmMatches request.ifNoneMatch object.httpEtag = false →
      (W1.fetch request env).gets = ["index.html"] ∧
      (W1.fetch request env).resp.status = 200 ∧
      hget (W1.fetch request env).resp.headers "Content-Type"
        = some "text/html; charset=utf-8" ∧
      (W1.fetch request env).resp.body = some (Body.objectStream object.data)) ∧
    (∀ (request : Request) (env : Env),
      (request.method = Method.GET ∨ request.method = Method.HEAD) →
      (request.pathname = "" ∨ request.pathname = "/") →
      (W2.fetch request env).resp.status = 404 ∧
      (W2.fetch request env).gets = [] ∧
      (W2.fetch request env).lists = [] ∧
      hget (W2.fetch request env).resp.headers "Access-Control-Allow-Origin"
        = some "*") := by
  constructor
  · intro request env object hm hp hlive hobj hinm
    have hres := w1_r2Response_ok object (W1.getMimeType "index.html") false 86400
      request hinm
    have e0 : stripLeadingSlash "" = "" := by decide
    have e1 : stripLeadingSlash "/" = "" := by decide
    have e3 : W1.shouldTryGz "index.html" = false := by decide
    have e4 : strEndsWith "index.html" ".gz" = false := by decide
    have e5 : W1.getMimeType "index.html" = "text/html; charset=utf-8" := by decide
    rcases hp with hp | hp <;> rcases hm with hm | hm <;>
      simp [W1.fetch, hm, hp, e0, e1, e3, e4, hlive, hobj] <;>
      exact ⟨hres.1, hres.2.2.1.trans (congrArg some e5), hres.2.1⟩
  · intro request env hm hp
    have e0 : stripLeadingSlash "" = "" := by decide
    have e1 : stripLeadingSlash "/" = "" := by decide
    have e2 : strStartsWith "" "maps/" = false := by decide
    rcases hp with hp | hp <;> rcases hm with hm | hm <;>
      (simp [W2.fetch, W2.emptyResponse, hm, hp, e0, e1, e2]; all_goals decide)

/-- C9 (amended): an OPTIONS request short-circuits into the fixed
capability-advertisement response (allow-methods, allow-headers, max-age)
with no store access — on every path in the older variant, and on every
path other than the two debug endpoints in the newer variant, whose
/debug and /debug/live routes are dispatched before the preflight check. -/
theorem c9_preflight_short_circuit :
    (∀ (request : Request) (env : Env),
      request.method = Method.OPTIONS →
      (W1.fetch request env).resp.status = 200 ∧
      (W1.fetch request env).resp.body = none ∧
      hget (W1.fetch request env).resp.headers "Access-Control-Allow-Origin"
        = some "*" ∧
      hget (W1.fetch request env).resp.headers "Access-Control-Allow-Methods"
        = some "GET, HEAD, OPTIONS" ∧
      hget (W1.fetch request env).resp.headers "Access-Control-Allow-Headers"
        = some "*" ∧
      hget (W1.fetch request env).resp.headers "Access-Control-Max-Age"
        = some "86400" ∧
      (W1.fetch request env).gets = [] ∧
      (W1.fetch request env).net = []) ∧
    (∀ (request : Request) (env : Env),
      request.method = Method.OPTIONS →
      request.pathname ≠ "/debug/live" →
      request.pathname ≠ "/debug" →
      (W2.fetch request env).resp.status = 200 ∧
      (W2.fetch request env).resp.body = none ∧
      hget (W2.fetch request env).resp.headers "Access-Control-Allow-Origin"
        = some "*" ∧
      hget (W2.fetch request env).resp.headers "Access-Control-Allow-Methods"
        = some "GET, HEAD, OPTIONS" ∧
      hget (W2.fetch request env).resp.headers "Access-Control-Allow-Headers"
        = some "*" ∧
      hget (W2.fetch request env).resp.headers "Access-Control-Max-Age"
        = some "86400" ∧
      (W2.fetch request env).gets = [] ∧
      (W2.fetch request env).lists = [] ∧
      (W2.fetch request env).net = []) := by
  constructor
  · intro request env hm
    simp [W1.fetch, hm]
    all_goals decide
  · intro request env hm hdl hd
    simp [W2.fetch, hm, hdl, hd]
    all_goals decide

/-- Concrete instance of c1_compressed_only_gz_served: GET
/maps/world/textures.json with only the .gz object stored yields 200,
Content-Encoding: gzip and a JSON content type, in both variants. -/
theorem c1_witness :
    (W2.fetch (getReq "/maps/world/textures.json") texEnv).resp.status = 200 ∧
    hget (W2.fetch (getReq "/maps/world/textures.json") texEnv).resp.headers
      "Content-Encoding" = some "gzip" ∧
    hget (W2.fetch (getReq "/maps/world/textures.json") texEnv).resp.headers
      "Content-Type" = some "application/json" ∧
    (W1.fetch (getReq "/maps/world/textures.json") w1TexEnv).resp.status = 200 ∧
    hget (W1.fetch (getReq "/maps/world/textures.json") w1TexEnv).resp.headers
      "Content-Encoding" = some "gzip" ∧
    hget (W1.fetch (getReq "/maps/world/textures.json") w1TexEnv).resp.headers
      "Content-Type" = some "application/json; charset=utf-8" := by
  have h2 := c1_compressed_only_gz_served.1 (getReq "/maps/world/textures.json") texEnv
    sampleObj (Or.inl rfl) (by decide) (by decide) (by decide) (by decide) (by decide)
    (by decide) (by decide) (by decide)
  have h1 := c1_compressed_only_gz_served.2 (getReq "/maps/world/textures.json") w1TexEnv
    sampleObj (Or.inl rfl) (by decide) (by decide) (by decide) (by decide) (by decide)
    (by decide) (by decide) (by decide)
  exact ⟨h2.1, h2.2.1, h2.2.2.1.trans (by decide), h1.1, h1.2.1,
    h1.2.2.1.trans (by decide)⟩

/-- Concrete instances of c2_probe_traces: gzip-first with early stop in
the newer variant, single-probe stop on a gzip hit, gzip-then-plain on a
plain hit, and the older variant probing settings.json plain key first. -/
theorem c2_witness :
    (W2.fetch (getReq "/maps/world/textures.json") texEnv).gets
      = ["world/textures.json.gz"] ∧
    (W2.fetch (getReq "/maps/world/tiles/0/x0/z0.prbm") tilePlainEnv).gets
      = ["world/tiles/0/x0/z0.prbm.gz", "world/tiles/0/x0/z0.prbm"] ∧
    (W1.fetch (getReq "/maps/world/textures.json") w1TexEnv).gets
      = ["maps/world/textures.json.gz"] ∧
    (W1.fetch (getReq "/maps/world/settings.json") w1SettingsEnv).gets
      = ["maps/world/settings.json"] ∧
    (W1.fetch (getReq "/maps/world/settings.json") emptyEnv).gets
      = ["maps/world/settings.json", "maps/world/settings.json.gz"] := by
  have a1 := (c2_probe_traces.1 (getReq "/maps/world/textures.json") texEnv (Or.inl rfl)
    (by decide) (by decide) (by decide) (by decide) (by decide)).1 sampleObj (by decide)
  have a2 := (c2_probe_traces.1 (getReq "/maps/world/tiles/0/x0/z0.prbm") tilePlainEnv
    (Or.inl rfl) (by decide) (by decide) (by decide) (by decide) (by decide)).2.1
    sampleObj (by decide) (by decide)
  have a3 := (c2_probe_traces.2.1 (getReq "/maps/world/textures.json") w1TexEnv
    (Or.inl rfl) (by decide) (by decide) (by decide) (by decide)).1 sampleObj (by decide)
  have a4 := (c2_probe_traces.2.2 (getReq "/maps/world/settings.json") w1SettingsEnv
    (Or.inl rfl) (by decide) (by decide) (by decide) (by decide) (by decide)
    (by decide)).1 sampleObj (by decide)
  have a5 := (c2_probe_traces.2.2 (getReq "/maps/world/settings.json") emptyEnv
    (Or.inl rfl) (by decide) (by decide) (by decide) (by decide) (by decide)
    (by decide)).2 (by decide)
  exact ⟨a1.trans (by decide), a2.trans (by decide), a3.trans (by decide),
    a4.trans (by decide), a5.trans (by decide)⟩

/-- Concrete instances of c3_miss_statuses: a missing tile resolves to 204
with an empty body and only the CORS header, a missing non-tile path to
404, in both variants. -/
theorem c3_witness :
    (W2.fetch (getReq "/maps/world/tiles/0/x9/z9.prbm") emptyEnv).resp.status = 204 ∧
    (W2.fetch (getReq "/maps/world/tiles/0/x9/z9.prbm") emptyEnv).resp.body = none ∧
    hget (W2.fetch (getReq "/maps/world/tiles/0/x9/z9.prbm") emptyEnv).resp.headers
      "Cache-Control" = none ∧
    (W2.fetch (getReq "/maps/world/textures.json") emptyEnv).resp.status = 404 ∧
    (W1.fetch (getReq "/maps/world/tiles/0/x9/z9.prbm") emptyEnv).resp.status = 204 ∧
    (W1.fetch (getReq "/maps/world/textures.json") emptyEnv).resp.status = 404 := by
  have a2t := c3_miss_statuses.1 (getReq "/maps/world/tiles/0/x9/z9.prbm") emptyEnv
    (Or.inl rfl) (by decide) (by decide) (by decide) (by decide) (by decide) (by decide)
  have a2n := c3_miss_statuses.1 (getReq "/maps/world/textures.json") emptyEnv
    (Or.inl rfl) (by decide) (by decide) (by decide) (by decide) (by decide) (by decide)
  have a1t := c3_miss_statuses.2 (getReq "/maps/world/tiles/0/x9/z9.prbm") emptyEnv
    (Or.inl rfl) (by decide) (by decide) (by decide) (by decide) (by decide)
  have a1n := c3_miss_statuses.2 (getReq "/maps/world/textures.json") emptyEnv
    (Or.inl rfl) (by decide) (by decide) (by decide) (by decide) (by decide)
  exact ⟨(a2t.1 (by decide)).1, (a2t.1 (by decide)).2.1, (a2t.1 (by decide)).2.2.2.2.1,
    (a2n.2 (by decide)).1, (a1t.1 (by decide)).1, (a1n.2 (by decide)).1⟩

/-- Concrete instance of c4_live_unconfigured_fallthrough: a live path
with no origin configured and nothing stored yields 404 after probing the
store twice, with no outbound call, in both variants. -/
theorem c4_witness :
    (W2.fetch (getReq "/maps/world/live/players.json") emptyEnv).resp.status = 404 ∧
    (W2.fetch (getReq "/maps/world/live/players.json") emptyEnv).net = [] ∧
    (W2.fetch (getReq "/maps/world/live/players.json") emptyEnv).gets
      = ["world/live/players.json", "world/live/players.json.gz"] ∧
    (W1.fetch (getReq "/maps/world/live/players.json") emptyEnv).resp.status = 404 ∧
    (W1.fetch (getReq "/maps/world/live/players.json") emptyEnv).net = [] := by
  have a2 := c4_live_unconfigured_fallthrough.1 (getReq "/maps/world/live/players.json")
    emptyEnv (Or.inl rfl) (by decide) (by decide) (by decide) (by decide) (by decide)
    (by decide) (by decide) (by decide) (by decide) (by decide) (by decide) (by decide)
  have a1 := c4_live_unconfigured_fallthrough.2 (getReq "/maps/world/live/players.json")
    emptyEnv (Or.inl rfl) (by decide) (by decide) (by decide) (by decide) (by decide)
    (by decide) (by decide) (by decide) (by decide)
  exact ⟨a2.1, a2.2.1, a2.2.2.trans (by decide), a1.1, a1.2.1⟩

/-- Concrete instances of c5_live_proxy_behavior: the newer variant relays
the origin status, overrides Cache-Control to 5 seconds and adds CORS; the
older variant keeps the origin header set apart from CORS; both make one
outbound call and yield 502 on transport error. -/
theorem c5_witness :
    (W2.fetch (getReq "/maps/world/live/players.json") liveOkEnv).resp.status = 200 ∧
    hget (W2.fetch (getReq "/maps/world/live/players.json") liveOkEnv).resp.headers
      "Cache-Control" = some "public, max-age=5" ∧
    hget (W2.fetch (getReq "/maps/world/live/players.json") liveOkEnv).resp.headers
      "Access-Control-Allow-Origin" = some "*" ∧
    (W2.fetch (getReq "/maps/world/live/players.json") liveErrEnv).resp.status = 502 ∧
    (W2.fetch (getReq "/maps/world/live/players.json") liveErrEnv).net
      = ["http://mc:8100/maps/world/live/players.json"] ∧
    (W1.fetch (getReq "/maps/world/live/players.json") liveOkEnv).resp.status = 200 ∧
    hget (W1.fetch (getReq "/maps/world/live/players.json") liveOkEnv).resp.headers
      "Access-Control-Allow-Origin" = some "*" ∧
    (W1.fetch (getReq "/maps/world/live/players.json") liveErrEnv).resp.status = 502 := by
  have a2s := c5_live_proxy_behavior.1 (getReq "/maps/world/live/players.json") liveOkEnv
    { status := 200, headers := [("Cache-Control", "public, max-age=99999")], body := "[]" }
    (Or.inl rfl) (by decide) (by decide) (by decide) (by decide) rfl
  have a2f := c5_live_proxy_behavior.2.1 (getReq "/maps/world/live/players.json")
    liveErrEnv (Or.inl rfl) (by decide) (by decide) (by decide) (by decide) rfl
  have a1s := c5_live_proxy_behavior.2.2.1 (getReq "/maps/world/live/players.json")
    liveOkEnv
    { status := 200, headers := [("Cache-Control", "public, max-age=99999")], body := "[]" }
    (Or.inl rfl) (by decide) (by decide) (by decide) rfl
  have a1f := c5_live_proxy_behavior.2.2.2 (getReq "/maps/world/live/players.json")
    liveErrEnv (Or.inl rfl) (by decide) (by decide) (by decide) rfl
  exact ⟨a2s.1, a2s.2.2.1, a2s.2.2.2.1, a2f.1, a2f.2.2.2.trans (by decide), a1s.1,
    a1s.2.2.2.1, a1f.1⟩

/-- Concrete instance of c7_conditional_304: a request whose If-None-Match
equals the stored ETag draws 304 with no body from every response builder. -/
theorem c7_witness :
    (W1.r2Response sampleObj "application/octet-stream" true 86400 inmReq).status
      = 304 ∧
    (W1.r2Response sampleObj "application/octet-stream" false 86400 inmReq).body
      = none ∧
    (W2.r2Response sampleObj "application/json" inmReq).status = 304 ∧
    (W2.r2Response sampleObj "application/json" inmReq).body = none ∧
    (W2.compressedR2Response sampleObj "application/json" inmReq).status = 304 ∧
    (W2.compressedR2Response sampleObj "application/json" inmReq).body = none := by
  have a1 := c7_conditional_304.1 sampleObj "application/octet-stream" true 86400 inmReq
    rfl (by decide)
  have a1p := c7_conditional_304.1 sampleObj "application/octet-stream" false 86400
    inmReq rfl (by decide)
  have a2 := c7_conditional_304.2.1 sampleObj "application/json" inmReq rfl (by decide)
  have a3 := c7_conditional_304.2.2 sampleObj "application/json" inmReq rfl (by decide)
  exact ⟨a1.1, a1p.2.1, a2.1, a2.2.1, a3.1, a3.2.1⟩

/-- Concrete instance of c8_root_entry_document: the older variant serves
index.html from the store for the root path; the newer variant answers 404
without a store probe. -/
theorem c8_witness :
    (W1.fetch (getReq "/") idxEnv).gets = ["index.html"] ∧
    (W1.fetch (getReq "/") idxEnv).resp.status = 200 ∧
    hget (W1.fetch (getReq "/") idxEnv).resp.headers "Content-Type"
      = some "text/html; charset=utf-8" ∧
    (W2.fetch (getReq "/") idxEnv).resp.status = 404 ∧
    (W2.fetch (getReq "/") idxEnv).gets = [] := by
  have a1 := c8_root_entry_document.1 (getReq "/") idxEnv sampleObj (Or.inl rfl)
    (Or.inr rfl) (by decide) (by decide) (by decide)
  have a2 := c8_root_entry_document.2 (getReq "/") idxEnv (Or.inl rfl) (Or.inr rfl)
  exact ⟨a1.1, a1.2.1, a1.2.2.1, a2.1, a2.2.1⟩

/-- Concrete instance of c9_preflight_short_circuit: OPTIONS on an
ordinary path draws the fixed capability response with no store access,
in both variants. -/
theorem c9_witness :
    (W1.fetch (optionsReq "/maps/world/textures.json") emptyEnv).resp.status = 200 ∧
    hget (W1.fetch (optionsReq "/maps/world/textures.json") emptyEnv).resp.headers
      "Access-Control-Allow-Methods" = some "GET, HEAD, OPTIONS" ∧
    (W1.fetch (optionsReq "/maps/world/textures.json") emptyEnv).gets = [] ∧
    (W2.fetch (optionsReq "/maps/world/textures.json") emptyEnv).resp.status = 200 ∧
    hget (W2.fetch (optionsReq "/maps/world/textures.json") emptyEnv).resp.headers
      "Access-Control-Allow-Methods" = some "GET, HEAD, OPTIONS" ∧
    (W2.fetch (optionsReq "/maps/world/textures.json") emptyEnv).gets = [] ∧
    (W2.fetch (optionsReq "/maps/world/textures.json") emptyEnv).lists = [] := by
  have a1 := c9_preflight_short_circuit.1 (optionsReq "/maps/world/textures.json")
    emptyEnv rfl
  have a2 := c9_preflight_short_circuit.2 (optionsReq "/maps/world/textures.json")
    emptyEnv rfl (by decide) (by decide)
  exact ⟨a1.1, a1.2.2.2.1, a1.2.2.2.2.2.2.1, a2.1, a2.2.2.2.1, a2.2.2.2.2.2.2.1,
    a2.2.2.2.2.2.2.2.1⟩

/-- Concrete instance of c10_gz_exact_key: a request that already names
the .gz key is served with a single probe, 200, no Content-Encoding, and
(newer variant) Content-Type application/json for a .json.gz key. -/
theorem c10_witness :
    (W2.fetch (getReq "/maps/world/textures.json.gz") texEnv).gets
      = ["world/textures.json.gz"] ∧
    (W2.fetch (getReq "/maps/world/textures.json.gz") texEnv).resp.status = 200 ∧
    hget (W2.fetch (getReq "/maps/world/textures.json.gz") texEnv).resp.headers
      "Content-Encoding" = none ∧
    hget (W2.fetch (getReq "/maps/world/textures.json.gz") texEnv).resp.headers
      "Content-Type" = some "application/json" ∧
    (W1.fetch (getReq "/maps/world/textures.json.gz") w1TexEnv).gets
      = ["maps/world/textures.json.gz"] ∧
    (W1.fetch (getReq "/maps/world/textures.json.gz") w1TexEnv).resp.status = 200 ∧
    hget (W1.fetch (getReq "/maps/world/textures.json.gz") w1TexEnv).resp.headers
      "Content-Encoding" = none := by
  have a2 := c10_gz_exact_key.1 (getReq "/maps/world/textures.json.gz") texEnv sampleObj
    (Or.inl rfl) (by decide) (by decide) (by decide) (by decide) (by decide) (by decide)
    (by decide) (by decide) (by decide) (by decide)
  have a1 := c10_gz_exact_key.2.2 (getReq "/maps/world/textures.json.gz") w1TexEnv
    sampleObj (Or.inl rfl) (by decide) (by decide) (by decide) (by decide) (by decide)
    (by decide)
  exact ⟨a2.1.trans (by decide), a2.2.1, a2.2.2.1, a2.2.2.2.1.trans (by decide),
    a1.1.trans (by decide), a1.2.1, a1.2.2.1⟩
